import Mathlib

/-!
Verification of the layered configuration / profile-resolution core of the
tally-cli repository. The Rust source in `src/config_file.rs`, `src/config.rs`,
`src/main.rs` and `src/commands/config_file_ops.rs` is shallowly embedded:
the persisted `ConfigFile` document becomes a Lean structure (the `HashMap` of
profiles becomes an association list with HashMap insert/lookup semantics),
`anyhow` errors become an explicit error inductive, and the two process-wide
inputs (environment, on-disk file state) become explicit parameters.
-/

namespace Tally

/-- Process environment: a variable name maps to its value when the variable is
set (possibly to the empty string), `none` when unset. Mirrors `std::env::var`
returning `Ok`/`Err`. -/
abbrev Env := String → Option String

/-- Profile-specific configuration, from `ProfileConfig` in `src/config_file.rs`:
`rpc_url` is a required string, the other four fields are `Option<String>`. -/
structure ProfileConfig where
  rpc_url : String
  program_id : Option String
  usdc_mint : Option String
  merchant : Option String
  wallet_path : Option String
  deriving Repr, DecidableEq

/-- Global defaults, from `DefaultConfig` in `src/config_file.rs`; all three
fields are `Option<String>` and `#[derive(Default)]` makes them `None`. -/
structure DefaultConfig where
  active_profile : Option String := none
  output_format : Option String := none
  wallet_path : Option String := none
  deriving Repr, DecidableEq

/-- The profiles map `HashMap<String, ProfileConfig>`, embedded as an
association list; `find?`/`insert` below implement the HashMap lookup and
insert-or-replace semantics (iteration order of the Rust HashMap is arbitrary
and no claim depends on it, so the list order just records insertion order). -/
abbrev Profiles := List (String × ProfileConfig)

/-- Embeds `HashMap::get`: the value stored at `name`, if any. -/
def Profiles.find? (name : String) : Profiles → Option ProfileConfig
  | [] => none
  | (k, v) :: rest => if k = name then some v else Profiles.find? name rest

/-- Embeds `HashMap::insert`: replace the binding of `name` if present, else add it. -/
def Profiles.insert (name : String) (p : ProfileConfig) : Profiles → Profiles
  | [] => [(name, p)]
  | (k, v) :: rest =>
    if k = name then (name, p) :: rest else (k, v) :: Profiles.insert name p rest

/-- Embeds `HashMap::contains_key`. -/
def Profiles.containsKey (name : String) (l : Profiles) : Bool :=
  (Profiles.find? name l).isSome

/-- The persisted configuration document, from `ConfigFile` in
`src/config_file.rs`. -/
structure ConfigFile where
  version : String
  defaults : DefaultConfig
  profiles : Profiles
  deriving Repr, DecidableEq

/-- Source `default_version()` in `src/config_file.rs`. -/
def default_version : String := "1.0.0"

/-- The error taxonomy of the subsystem. The Rust code builds `anyhow` errors
with contextual text; each constructor records the data that text carries
(profile name, key, path, or the full literal message where a claim inspects
it). `noActiveProfile` carries no payload: the two call sites differ only in
their free-text wording. -/
inductive TallyError where
  | noActiveProfile
  | profileNotFound (name : String)
  | unknownKey (key : String)
  | ioError (path : String) (msg : String)
  | parseError (path : String) (msg : String)
  | missingConfiguration (msg : String)
  | profileExists (name : String)
  | pathResolution (msg : String)
  deriving Repr, DecidableEq

/-- Source `ConfigFile::new` in `src/config_file.rs`: the seeded default document with
the three profiles inserted in source order (devnet, mainnet, localnet). -/
def ConfigFile.new : ConfigFile :=
  let profiles : Profiles :=
    Profiles.insert "localnet"
      { rpc_url := "http://127.0.0.1:8899"
        program_id := none
        usdc_mint := none
        merchant := none
        wallet_path := none }
      (Profiles.insert "mainnet"
        { rpc_url := "https://api.mainnet-beta.solana.com"
          program_id := none
          usdc_mint := some "EPjFWdd5AufqSSqeM2qN1xzybapC8G4wEGGkZwyTDt1v"
          merchant := none
          wallet_path := none }
        (Profiles.insert "devnet"
          { rpc_url := "https://api.devnet.solana.com"
            program_id := none
            usdc_mint := some "Gh9ZwEmdLJ8DscKNTkTqPbNwLNNBjuSzaG9Vp2KGtKJr"
            merchant := none
            wallet_path := none }
          []))
  { version := default_version
    defaults :=
      { active_profile := some "devnet"
        output_format := some "human"
        wallet_path := none }
    profiles := profiles }

/-- Source `ConfigFile::active_profile`: look up `defaults.active_profile` in
`profiles`; `none` when unset or dangling. -/
def ConfigFile.active_profile (c : ConfigFile) : Option ProfileConfig :=
  c.defaults.active_profile.bind (fun name => Profiles.find? name c.profiles)

/-- Source `ConfigFile::get_profile`: direct map lookup. -/
def ConfigFile.get_profile (c : ConfigFile) (name : String) : Option ProfileConfig :=
  Profiles.find? name c.profiles

/-- Source `ConfigFile::set_active_profile`: unconditional write, no existence check. -/
def ConfigFile.set_active_profile (c : ConfigFile) (profile_name : String) : ConfigFile :=
  { c with defaults := { c.defaults with active_profile := some profile_name } }

/-- Source `ConfigFile::set_profile_value`: resolve the active profile name (else
`noActiveProfile`), fetch the profile (else `profileNotFound`), then update the
field selected by `key`, accepting both spellings (else `unknownKey`). -/
def ConfigFile.set_profile_value (c : ConfigFile) (key : String) (value : String) :
    Except TallyError ConfigFile :=
  match c.defaults.active_profile with
  | none => .error .noActiveProfile
  | some profile_name =>
    match Profiles.find? profile_name c.profiles with
    | none => .error (.profileNotFound profile_name)
    | some profile =>
      let updated : Option ProfileConfig :=
        if key = "rpc-url" ∨ key = "rpc_url" then
          some { profile with rpc_url := value }
        else if key = "program-id" ∨ key = "program_id" then
          some { profile with program_id := some value }
        else if key = "usdc-mint" ∨ key = "usdc_mint" then
          some { profile with usdc_mint := some value }
        else if key = "merchant" then
          some { profile with merchant := some value }
        else if key = "wallet-path" ∨ key = "wallet_path" then
          some { profile with wallet_path := some value }
        else none
      match updated with
      | none => .error (.unknownKey key)
      | some p2 => .ok { c with profiles := Profiles.insert profile_name p2 c.profiles }

/-- Source `ConfigFile::get_profile_value`: same resolution steps as
`set_profile_value`, then read the field selected by `key` (the required
`rpc_url` comes back as `some`, optional fields as stored). -/
def ConfigFile.get_profile_value (c : ConfigFile) (key : String) :
    Except TallyError (Option String) :=
  match c.defaults.active_profile with
  | none => .error .noActiveProfile
  | some profile_name =>
    match Profiles.find? profile_name c.profiles with
    | none => .error (.profileNotFound profile_name)
    | some profile =>
      if key = "rpc-url" ∨ key = "rpc_url" then
        .ok (some profile.rpc_url)
      else if key = "program-id" ∨ key = "program_id" then
        .ok profile.program_id
      else if key = "usdc-mint" ∨ key = "usdc_mint" then
        .ok profile.usdc_mint
      else if key = "merchant" then
        .ok profile.merchant
      else if key = "wallet-path" ∨ key = "wallet_path" then
        .ok profile.wallet_path
      else .error (.unknownKey key)

/-- The nine literal key spellings accepted by `set_profile_value` /
`get_profile_value` (five logical keys, `merchant` having one spelling). -/
def recognizedKeys : List String :=
  ["rpc-url", "rpc_url", "program-id", "program_id",
   "usdc-mint", "usdc_mint", "merchant", "wallet-path", "wallet_path"]

/-- Rust `str::parse::<i64>` as used for the lookback variable: optional sign, at
least one ASCII digit, no other characters, value within the i64 range. -/
def parseI64 (s : String) : Option Int :=
  let signDigits : Int × List Char :=
    match s.toList with
    | '+' :: rest => (1, rest)
    | '-' :: rest => (-1, rest)
    | l => (1, l)
  let sign := signDigits.1
  let digits := signDigits.2
  if digits.isEmpty then none
  else if digits.all Char.isDigit then
    let n : Nat := digits.foldl (fun acc c => acc * 10 + (c.toNat - 48)) 0
    let v : Int := sign * (n : Int)
    if -(2 ^ 63) ≤ v ∧ v < 2 ^ 63 then some v else none
  else none

/-- The Defaults Provider, from `TallyCliConfig` in `src/config.rs`. -/
structure TallyCliConfig where
  default_rpc_url : String
  default_output_format : String
  default_events_lookback_secs : Int
  deriving Repr, DecidableEq

/-- Source `TallyCliConfig::new`: each field is the environment override when present,
else the hardcoded fallback; the lookback value falls back silently when the
variable fails to parse as an integer. -/
def TallyCliConfig.new (env : Env) : TallyCliConfig :=
  { default_rpc_url := (env "TALLY_RPC_URL").getD "https://api.devnet.solana.com"
    default_output_format := (env "TALLY_DEFAULT_OUTPUT_FORMAT").getD "human"
    default_events_lookback_secs :=
      (((env "TALLY_DEFAULT_EVENTS_LOOKBACK_SECS").bind parseI64).getD 3600) }

/-- The endpoint precedence chain from `main` in `src/main.rs` (lines 442-452):
CLI flag, else (if the endpoint variable is merely set) the Defaults Provider
value, else the active profile endpoint, else the Defaults Provider value. -/
def resolveRpcUrl (cliRpcUrl : Option String) (env : Env) (config : TallyCliConfig)
    (configFile : ConfigFile) : String :=
  ((cliRpcUrl.orElse
      (fun _ => (env "TALLY_RPC_URL").map (fun _ => config.default_rpc_url))).orElse
    (fun _ => configFile.active_profile.map ProfileConfig.rpc_url)).getD
    config.default_rpc_url

/-- The multi-line guidance text of the program-id configuration error in
`main` (`src/main.rs` lines 466-482); Rust backslash-newline continuations
splice the lines with their leading whitespace stripped. -/
def programIdMissingMsg : String :=
  "This command requires connection to Solana.\n" ++
  "\n" ++
  "Program ID not configured. You can fix this by:\n" ++
  "\n" ++
  "1. Set the TALLY_PROGRAM_ID environment variable:\n" ++
  "export TALLY_PROGRAM_ID=<your-program-id>\n" ++
  "\n" ++
  "2. Or configure it in your profile:\n" ++
  "tally-merchant config init\n" ++
  "tally-merchant config set program-id <your-program-id>\n" ++
  "\n" ++
  "3. Or pass it as a CLI flag:\n" ++
  "tally-merchant " ++ "--program-id <your-program-id> <command>\n" ++
  "\n" ++
  "See https://github.com/Tally-Pay/tally-cli for program IDs"

/-- The program-id precedence chain from `main` in `src/main.rs` (lines
454-486): CLI flag, else the `program_id` of the active profile; when both are
absent, a hard error unless the `TALLY_PROGRAM_ID` variable is set, in which
case the empty string is passed so the SDK reads the variable itself. -/
def resolveProgramId (cliProgramId : Option String) (env : Env)
    (configFile : ConfigFile) : Except TallyError String :=
  match cliProgramId.orElse
      (fun _ => configFile.active_profile.bind ProfileConfig.program_id) with
  | some id => .ok id
  | none =>
    match env "TALLY_PROGRAM_ID" with
    | none => .error (.missingConfiguration programIdMissingMsg)
    | some _ => .ok ""

/-!
The persisted file format. The document is serialized to TOML by serde; the
fragment of TOML the document uses (string values and nested tables, `None`
fields omitted, unknown fields ignored on input, missing `version`/`defaults`/
`profiles` replaced by their serde defaults) is embedded as the `Toml` tree
below, with `serializeConfigFile` playing `toml::to_string_pretty` and
`parseConfigToml` playing `toml::from_str` on well-formed TOML syntax.
-/

/-- A TOML value as the document uses it: a string or a table of key-value
pairs (well-formed TOML syntax never repeats a key within one table). -/
inductive Toml where
  | str (s : String)
  | table (kvs : List (String × Toml))

/-- First binding of `key` in a table body. -/
def Toml.lookup (key : String) : List (String × Toml) → Option Toml
  | [] => none
  | (k, v) :: rest => if k = key then some v else Toml.lookup key rest

/-- Serialize one optional string field; serde omits `None` fields. -/
def optField (key : String) : Option String → List (String × Toml)
  | none => []
  | some v => [(key, Toml.str v)]

/-- The table body of a serialized `ProfileConfig` (serde emits fields in
declaration order). -/
def serializeProfileKvs (p : ProfileConfig) : List (String × Toml) :=
  [("rpc_url", Toml.str p.rpc_url)]
    ++ optField "program_id" p.program_id
    ++ optField "usdc_mint" p.usdc_mint
    ++ optField "merchant" p.merchant
    ++ optField "wallet_path" p.wallet_path

/-- Serialize a `ProfileConfig`. -/
def serializeProfile (p : ProfileConfig) : Toml :=
  .table (serializeProfileKvs p)

/-- The table body of a serialized `DefaultConfig`. -/
def serializeDefaultsKvs (d : DefaultConfig) : List (String × Toml) :=
  optField "active_profile" d.active_profile
    ++ optField "output_format" d.output_format
    ++ optField "wallet_path" d.wallet_path

/-- Serialize a `DefaultConfig`. -/
def serializeDefaults (d : DefaultConfig) : Toml :=
  .table (serializeDefaultsKvs d)

/-- Serialize a whole `ConfigFile` document. -/
def serializeConfigFile (c : ConfigFile) : Toml :=
  .table [("version", Toml.str c.version),
          ("defaults", serializeDefaults c.defaults),
          ("profiles", Toml.table (c.profiles.map
            (fun kv => (kv.1, serializeProfile kv.2))))]

/-- Deserialize an optional string field: absent means `none`, a table where a
string is expected is a type error. -/
def parseOptString (kvs : List (String × Toml)) (key : String) :
    Except String (Option String) :=
  match Toml.lookup key kvs with
  | none => .ok none
  | some (Toml.str s) => .ok (some s)
  | some (Toml.table _) => .error ("invalid type for key " ++ key)

/-- Deserialize a `ProfileConfig` table: `rpc_url` required, the rest
optional, unknown keys ignored. -/
def parseProfile (kvs : List (String × Toml)) : Except String ProfileConfig := do
  let rpc ← match Toml.lookup "rpc_url" kvs with
    | some (Toml.str s) => Except.ok s
    | some (Toml.table _) => Except.error "invalid type for key rpc_url"
    | none => Except.error "missing field rpc_url"
  let pid ← parseOptString kvs "program_id"
  let mint ← parseOptString kvs "usdc_mint"
  let merch ← parseOptString kvs "merchant"
  let wp ← parseOptString kvs "wallet_path"
  .ok { rpc_url := rpc, program_id := pid, usdc_mint := mint,
        merchant := merch, wallet_path := wp }

/-- Deserialize the `profiles` table, one sub-table per profile. -/
def parseProfiles : List (String × Toml) → Except String Profiles
  | [] => .ok []
  | (name, Toml.table kvs) :: rest => do
    let p ← parseProfile kvs
    let ps ← parseProfiles rest
    .ok ((name, p) :: ps)
  | (name, Toml.str _) :: _ => .error ("invalid type for profile " ++ name)

/-- Deserialize a `DefaultConfig` table. -/
def parseDefaults (t : Toml) : Except String DefaultConfig :=
  match t with
  | Toml.str _ => .error "invalid type for key defaults"
  | Toml.table kvs => do
    let ap ← parseOptString kvs "active_profile"
    let o ← parseOptString kvs "output_format"
    let w ← parseOptString kvs "wallet_path"
    .ok { active_profile := ap, output_format := o, wallet_path := w }

/-- Deserialize a whole document, applying the serde defaults for missing
`version` (`default_version`), `defaults` (all-`none`) and `profiles` (empty). -/
def parseConfigToml (t : Toml) : Except String ConfigFile :=
  match t with
  | Toml.str _ => .error "invalid document"
  | Toml.table kvs => do
    let version ← match Toml.lookup "version" kvs with
      | none => Except.ok default_version
      | some (Toml.str s) => Except.ok s
      | some (Toml.table _) => Except.error "invalid type for key version"
    let defaults ← match Toml.lookup "defaults" kvs with
      | none => Except.ok ({} : DefaultConfig)
      | some td => parseDefaults td
    let profiles ← match Toml.lookup "profiles" kvs with
      | none => Except.ok ([] : Profiles)
      | some (Toml.table pkvs) => parseProfiles pkvs
      | some (Toml.str _) => Except.error "invalid type for key profiles"
    .ok { version := version, defaults := defaults, profiles := profiles }

/-!
On-disk file state and `ConfigFile::load`. The filesystem interaction is
abstracted into the four observable outcomes of the read-and-parse step; a
syntactically malformed file and a well-formed file that serde rejects both
surface as a `parseError` carrying the config path, exactly as
`toml::from_str(...).with_context(...)` does.
-/

/-- What the resolved config path holds at load time. -/
inductive FileState where
  | absent
  | readFailure (msg : String)
  | malformed (msg : String)
  | wellFormed (t : Toml)

/-- Source `ConfigFile::load` (`src/config_file.rs` lines 130-142): a missing file
yields the seeded default document (nothing is written), a read failure an
`ioError`, unparseable content a `parseError` with the offending path. -/
def ConfigFile.load (path : String) (fs : FileState) : Except TallyError ConfigFile :=
  match fs with
  | .absent => .ok ConfigFile.new
  | .readFailure m => .error (.ioError path m)
  | .malformed m => .error (.parseError path m)
  | .wellFormed t =>
    match parseConfigToml t with
    | .ok c => .ok c
    | .error m => .error (.parseError path m)

/-- The startup load in `main` (`src/main.rs` line 431):
`ConfigFile::load().unwrap_or_else(|_| ConfigFile::new())` — any load error is
swallowed and the freshly seeded default document is used instead. -/
def mainLoadConfigFile (path : String) (fs : FileState) : ConfigFile :=
  match ConfigFile.load path fs with
  | .ok c => c
  | .error _ => ConfigFile.new

/-- Command `config get` after its load step (`config_file_ops::get`, lines
104-121): temporarily switch the active profile when `--profile` was given,
read the key (the restore step only affects the in-memory copy, which is
dropped unsaved). -/
def configGetCore (c : ConfigFile) (key : String) (profile_name : Option String) :
    Except TallyError String := do
  let c := match profile_name with
    | some n => c.set_active_profile n
    | none => c
  let v ← c.get_profile_value key
  .ok (v.getD "(not set)")

/-- Command `config get` (`config_file_ops::get`): `ConfigFile::load()?`
followed by the rest of the handler. -/
def configOpsGet (path : String) (fs : FileState) (key : String)
    (profile_name : Option String) : Except TallyError String := do
  let c ← ConfigFile.load path fs
  configGetCore c key profile_name

/-- The document-transforming core of `config set` (`config_file_ops::set`,
lines 128-158), applied to the loaded document: temporarily switch the active
profile when `--profile` was given, write the key, restore the original active
profile only when one was previously set, and return the document that is then
saved. -/
def configOpsSet (c : ConfigFile) (key : String) (value : String)
    (profile_name : Option String) : Except TallyError ConfigFile := do
  let originalActive := c.defaults.active_profile
  let c := match profile_name with
    | some n => c.set_active_profile n
    | none => c
  let c ← c.set_profile_value key value
  let c := match originalActive with
    | some original => c.set_active_profile original
    | none => c
  .ok c

/-- The document-transforming core of `config profile create`
(`config_file_ops::create_profile`, lines 253-287), applied to the loaded
document: reject an existing name, else insert a profile whose `merchant` and
`wallet_path` are unset. -/
def create_profile (c : ConfigFile) (name : String) (rpc_url : String)
    (program_id : Option String) (usdc_mint : Option String) :
    Except TallyError ConfigFile :=
  if Profiles.containsKey name c.profiles then
    .error (.profileExists name)
  else
    let profile : ProfileConfig :=
      { rpc_url := rpc_url, program_id := program_id, usdc_mint := usdc_mint,
        merchant := none, wallet_path := none }
    .ok { c with profiles := Profiles.insert name profile c.profiles }

/-- Command `config set` (`config_file_ops::set`): `ConfigFile::load()?`
followed by the document-transforming core (the result is then saved). -/
def configSetCmd (path : String) (fs : FileState) (key : String) (value : String)
    (profile_name : Option String) : Except TallyError ConfigFile := do
  let c ← ConfigFile.load path fs
  configOpsSet c key value profile_name

/-- Command `config list` after its load step (`config_file_ops::list`, lines
48-97): select the explicitly named profile (else the profile-not-found error)
or the active profile (else the no-active-profile error), and compute the
display name (explicit name, else the active-profile name, else `unknown`).
The colored rendering of the selected profile is presentation and out of
scope, so the selection itself is returned. -/
def configListCore (c : ConfigFile) (profile_name : Option String) :
    Except TallyError (String × ProfileConfig) := do
  let profile_to_show ← match profile_name with
    | some name =>
      match c.get_profile name with
      | some p => Except.ok p
      | none => Except.error (TallyError.profileNotFound name)
    | none =>
      match c.active_profile with
      | some p => Except.ok p
      | none => Except.error TallyError.noActiveProfile
  let display := (profile_name.orElse (fun _ => c.defaults.active_profile)).getD "unknown"
  .ok (display, profile_to_show)

/-- Command `config list` (`config_file_ops::list`): `ConfigFile::load()?`
followed by the rest of the handler. -/
def configOpsList (path : String) (fs : FileState) (profile_name : Option String) :
    Except TallyError (String × ProfileConfig) := do
  let c ← ConfigFile.load path fs
  configListCore c profile_name

/-- Command `config profile use` after its load step
(`config_file_ops::use_profile`, lines 222-246): reject a name absent from
`profiles` with the profile-not-found error (the source text lists the known
names), else set it active and return the document that is then saved. -/
def configUseCore (c : ConfigFile) (profile_name : String) :
    Except TallyError ConfigFile :=
  if Profiles.containsKey profile_name c.profiles then
    .ok (c.set_active_profile profile_name)
  else
    .error (.profileNotFound profile_name)

/-- Command `config profile use` (`config_file_ops::use_profile`):
`ConfigFile::load()?` followed by the rest of the handler. -/
def configOpsUse (path : String) (fs : FileState) (profile_name : String) :
    Except TallyError ConfigFile := do
  let c ← ConfigFile.load path fs
  configUseCore c profile_name

/-- Command `config profile create` (`config_file_ops::create_profile`):
`ConfigFile::load()?` followed by the document-transforming core (the result
is then saved). -/
def configCreateCmd (path : String) (fs : FileState) (name : String)
    (rpc_url : String) (program_id : Option String) (usdc_mint : Option String) :
    Except TallyError ConfigFile := do
  let c ← ConfigFile.load path fs
  create_profile c name rpc_url program_id usdc_mint

/-- Modelled from the spec (§4.4 and §4.3): the idealized endpoint resolver
whose priority-2 step reads the literal value of the endpoint environment variable;
stated only to be compared with the implemented `resolveRpcUrl`. -/
def specRpcUrlResolution (cliRpcUrl : Option String) (env : Env)
    (configFile : ConfigFile) : String :=
  match cliRpcUrl with
  | some a => a
  | none =>
    match env "TALLY_RPC_URL" with
    | some v => v
    | none =>
      match configFile.active_profile with
      | some p => p.rpc_url
      | none => "https://api.devnet.solana.com"

/-!
Recognizers and concrete fixtures used by the theorems below.
-/

/-- Recognizer for the no-active-profile error, on any result type. -/
def TallyError.isNoActiveProfile : TallyError → Bool
  | .noActiveProfile => true
  | _ => false

/-- Whether a result failed specifically with the no-active-profile error. -/
def failedWithNoActiveProfile {α : Type} : Except TallyError α → Bool
  | .error e => e.isNoActiveProfile
  | .ok _ => false

/-- Environment with only the endpoint variable set. -/
def envRpcSet : Env :=
  fun k => if k = "TALLY_RPC_URL" then some "http://env.example" else none

/-- Environment with no variable set. -/
def envAllUnset : Env := fun _ => none

/-- The devnet seed profile of `ConfigFile::new`. -/
def devnetSeedProfile : ProfileConfig :=
  { rpc_url := "https://api.devnet.solana.com"
    program_id := none
    usdc_mint := some "Gh9ZwEmdLJ8DscKNTkTqPbNwLNNBjuSzaG9Vp2KGtKJr"
    merchant := none
    wallet_path := none }

/-- A document whose active profile dangles: `defaults.active_profile` names
`ghost`, which is absent from `profiles`. -/
def danglingDoc : ConfigFile :=
  { version := "1.0.0"
    defaults := { active_profile := some "ghost", output_format := none, wallet_path := none }
    profiles := [] }

/-- A document with no active profile set but one existing profile. -/
def noActiveDoc : ConfigFile :=
  { version := "1.0.0"
    defaults := { active_profile := none, output_format := none, wallet_path := none }
    profiles := [("mainnet",
      { rpc_url := "https://api.mainnet-beta.solana.com"
        program_id := none
        usdc_mint := none
        merchant := none
        wallet_path := none })] }

/-!
Helper lemmas and claim theorems.
-/

/-- Computation rule for the `Except` monad: bind on a success. -/
theorem exceptBind_ok {ε α β : Type} (a : α) (f : α → Except ε β) :
    (Except.ok a : Except ε α) >>= f = f a := rfl

/-- Computation rule for the `Except` monad: bind on an error. -/
theorem exceptBind_error {ε α β : Type} (e : ε) (f : α → Except ε β) :
    (Except.error e : Except ε α) >>= f = Except.error e := rfl

/-- Inserting a binding makes it the one `find?` returns for that key. -/
theorem Profiles.find_insert_self (k : String) (v : ProfileConfig) (l : Profiles) :
    Profiles.find? k (Profiles.insert k v l) = some v := by
  induction l with
  | nil => simp [Profiles.insert, Profiles.find?]
  | cons hd tl ih =>
    by_cases h : hd.1 = k
    · simp [Profiles.insert, Profiles.find?, h]
    · simp [Profiles.insert, Profiles.find?, h, ih]

/-- Claim C1: the effective endpoint follows the four-level precedence of
`main`: a CLI `--rpc-url` flag wins outright; otherwise a merely *set*
endpoint environment variable (any value, even empty) makes the resolved
endpoint the value held by the Defaults Provider; otherwise a resolving active profile
supplies its endpoint; otherwise the hardcoded default endpoint is used. -/
theorem rpcUrl_precedence (env : Env) (cf : ConfigFile) :
    (∀ a, resolveRpcUrl (some a) env (TallyCliConfig.new env) cf = a) ∧
    (∀ v, env "TALLY_RPC_URL" = some v →
      resolveRpcUrl none env (TallyCliConfig.new env) cf =
        (TallyCliConfig.new env).default_rpc_url) ∧
    (∀ p, env "TALLY_RPC_URL" = none → cf.active_profile = some p →
      resolveRpcUrl none env (TallyCliConfig.new env) cf = p.rpc_url) ∧
    (env "TALLY_RPC_URL" = none → cf.active_profile = none →
      resolveRpcUrl none env (TallyCliConfig.new env) cf =
        "https://api.devnet.solana.com") := by
  refine ⟨fun a => rfl, fun v hv => ?_, fun p henv hp => ?_, fun henv hp => ?_⟩
  · simp [resolveRpcUrl, Option.orElse, hv]
  · simp [resolveRpcUrl, Option.orElse, henv, hp]
  · simp [resolveRpcUrl, Option.orElse, henv, hp, TallyCliConfig.new]

/-- Witness for C1: the four precedence levels observed on concrete states. -/
theorem rpcUrl_precedence_witness :
    resolveRpcUrl (some "http://flag.example") envRpcSet
      (TallyCliConfig.new envRpcSet) ConfigFile.new = "http://flag.example" ∧
    resolveRpcUrl none envRpcSet (TallyCliConfig.new envRpcSet) ConfigFile.new =
      (TallyCliConfig.new envRpcSet).default_rpc_url ∧
    resolveRpcUrl none envAllUnset (TallyCliConfig.new envAllUnset) ConfigFile.new =
      devnetSeedProfile.rpc_url ∧
    resolveRpcUrl none envAllUnset (TallyCliConfig.new envAllUnset) danglingDoc =
      "https://api.devnet.solana.com" :=
  ⟨(rpcUrl_precedence envRpcSet ConfigFile.new).1 "http://flag.example",
   (rpcUrl_precedence envRpcSet ConfigFile.new).2.1 "http://env.example" rfl,
   (rpcUrl_precedence envAllUnset ConfigFile.new).2.2.1 devnetSeedProfile rfl rfl,
   (rpcUrl_precedence envAllUnset danglingDoc).2.2.2 rfl rfl⟩

set_option maxRecDepth 40000

/-- Claim C2: when no CLI `--program-id` flag is given, the active profile
supplies no program identifier, and `TALLY_PROGRAM_ID` is unset, program-id
resolution fails hard with the missing-configuration error whose message
enumerates all three remediation paths (environment variable, persisted
profile setting, CLI flag); there is no silent fallback. -/
theorem programId_missing_hard_error (cli : Option String) (env : Env) (cf : ConfigFile)
    (hcli : cli = none)
    (hprof : cf.active_profile.bind ProfileConfig.program_id = none)
    (henv : env "TALLY_PROGRAM_ID" = none) :
    resolveProgramId cli env cf = .error (.missingConfiguration programIdMissingMsg) ∧
    "TALLY_PROGRAM_ID".toList <:+: programIdMissingMsg.toList ∧
    "config set program-id".toList <:+: programIdMissingMsg.toList ∧
    "--program-id".toList <:+: programIdMissingMsg.toList := by
  subst hcli
  refine ⟨?_, by decide, by decide, by decide⟩
  simp [resolveProgramId, Option.orElse, hprof, henv]

/-- Witness for C2: the hard error on the seeded default document (whose
devnet profile carries no program identifier) with an empty environment. -/
theorem programId_missing_hard_error_witness :
    resolveProgramId none envAllUnset ConfigFile.new =
      .error (.missingConfiguration programIdMissingMsg) ∧
    "TALLY_PROGRAM_ID".toList <:+: programIdMissingMsg.toList ∧
    "config set program-id".toList <:+: programIdMissingMsg.toList ∧
    "--program-id".toList <:+: programIdMissingMsg.toList :=
  programId_missing_hard_error none envAllUnset ConfigFile.new rfl rfl rfl

/-- Claim C3: `ConfigFile::new` (the pure `createDefault()`) yields exactly the
three named seed profiles in insertion order devnet, mainnet, localnet, each
with a non-empty endpoint, `version` equal to the current schema tag, and
`defaults.active_profile` equal to the name of the first seed profile. -/
theorem configFile_new_seed_invariant :
    ConfigFile.new.profiles.map Prod.fst = ["devnet", "mainnet", "localnet"] ∧
    (ConfigFile.new.profiles.all fun e => decide (e.2.rpc_url ≠ "")) = true ∧
    ConfigFile.new.version = default_version ∧
    ConfigFile.new.defaults.active_profile = some "devnet" := by
  decide

/-- Claim C9: because the Defaults Provider initializes its default endpoint
from `TALLY_RPC_URL`, the implemented presence-check-then-substitute endpoint
resolution is extensionally equal to the idealized resolver that reads the
literal value of the variable at priority 2. -/
theorem rpcUrl_refines_spec (cli : Option String) (env : Env) (cf : ConfigFile) :
    resolveRpcUrl cli env (TallyCliConfig.new env) cf =
      specRpcUrlResolution cli env cf := by
  cases cli with
  | some a => rfl
  | none =>
    cases henv : env "TALLY_RPC_URL" with
    | some v =>
      simp [resolveRpcUrl, specRpcUrlResolution, TallyCliConfig.new, henv, Option.orElse]
    | none =>
      cases hap : cf.active_profile with
      | some p =>
        simp [resolveRpcUrl, specRpcUrlResolution, TallyCliConfig.new, henv, hap, Option.orElse]
      | none =>
        simp [resolveRpcUrl, specRpcUrlResolution, TallyCliConfig.new, henv, hap, Option.orElse]

/-- Claim C4: on any document whose active profile resolves to an existing
entry, setting any recognized key (either spelling) to any string value
succeeds, and reading the same key back on the same active profile returns
exactly that value. -/
theorem set_get_consistency (c : ConfigFile) (key v : String)
    (hactive : (ConfigFile.active_profile c).isSome = true)
    (hkey : key ∈ recognizedKeys) :
    ∃ c2, c.set_profile_value key v = .ok c2 ∧
      c2.get_profile_value key = .ok (some v) := by
  obtain ⟨p, hp⟩ := Option.isSome_iff_exists.mp hactive
  rw [ConfigFile.active_profile] at hp
  obtain ⟨name, hname, hfind⟩ := Option.bind_eq_some.mp hp
  fin_cases hkey
  · refine ⟨{ c with profiles :=
        Profiles.insert name ({ p with rpc_url := v }) c.profiles }, ?_, ?_⟩
    · simp [ConfigFile.set_profile_value, hname, hfind]
    · simp [ConfigFile.get_profile_value, hname, Profiles.find_insert_self]
  · refine ⟨{ c with profiles :=
        Profiles.insert name ({ p with rpc_url := v }) c.profiles }, ?_, ?_⟩
    · simp [ConfigFile.set_profile_value, hname, hfind]
    · simp [ConfigFile.get_profile_value, hname, Profiles.find_insert_self]
  · refine ⟨{ c with profiles :=
        Profiles.insert name ({ p with program_id := some v }) c.profiles }, ?_, ?_⟩
    · simp [ConfigFile.set_profile_value, hname, hfind]
    · simp [ConfigFile.get_profile_value, hname, Profiles.find_insert_self]
  · refine ⟨{ c with profiles :=
        Profiles.insert name ({ p with program_id := some v }) c.profiles }, ?_, ?_⟩
    · simp [ConfigFile.set_profile_value, hname, hfind]
    · simp [ConfigFile.get_profile_value, hname, Profiles.find_insert_self]
  · refine ⟨{ c with profiles :=
        Profiles.insert name ({ p with usdc_mint := some v }) c.profiles }, ?_, ?_⟩
    · simp [ConfigFile.set_profile_value, hname, hfind]
    · simp [ConfigFile.get_profile_value, hname, Profiles.find_insert_self]
  · refine ⟨{ c with profiles :=
        Profiles.insert name ({ p with usdc_mint := some v }) c.profiles }, ?_, ?_⟩
    · simp [ConfigFile.set_profile_value, hname, hfind]
    · simp [ConfigFile.get_profile_value, hname, Profiles.find_insert_self]
  · refine ⟨{ c with profiles :=
        Profiles.insert name ({ p with merchant := some v }) c.profiles }, ?_, ?_⟩
    · simp [ConfigFile.set_profile_value, hname, hfind]
    · simp [ConfigFile.get_profile_value, hname, Profiles.find_insert_self]
  · refine ⟨{ c with profiles :=
        Profiles.insert name ({ p with wallet_path := some v }) c.profiles }, ?_, ?_⟩
    · simp [ConfigFile.set_profile_value, hname, hfind]
    · simp [ConfigFile.get_profile_value, hname, Profiles.find_insert_self]
  · refine ⟨{ c with profiles :=
        Profiles.insert name ({ p with wallet_path := some v }) c.profiles }, ?_, ?_⟩
    · simp [ConfigFile.set_profile_value, hname, hfind]
    · simp [ConfigFile.get_profile_value, hname, Profiles.find_insert_self]

/-- Witness for C4: setting then getting `program-id` on the seeded default
document round-trips the written value. -/
theorem set_get_consistency_witness :
    (ConfigFile.active_profile ConfigFile.new).isSome = true ∧
    "program-id" ∈ recognizedKeys ∧
    ∃ c2, ConfigFile.new.set_profile_value "program-id" "PID123" = .ok c2 ∧
      c2.get_profile_value "program-id" = .ok (some "PID123") :=
  ⟨rfl, by decide,
   set_get_consistency ConfigFile.new "program-id" "PID123" rfl (by decide)⟩

/-- Counterexample for C5: on a document whose `defaults.active_profile` names
the absent profile `ghost`, `get_profile_value` and `set_profile_value` fail
with the profile-not-found error, not the no-active-profile error the claim
requires. -/
theorem dangling_profile_not_noActiveProfile :
    danglingDoc.active_profile = none ∧
    danglingDoc.get_profile_value "rpc-url" = .error (.profileNotFound "ghost") ∧
    failedWithNoActiveProfile (danglingDoc.get_profile_value "rpc-url") = false ∧
    danglingDoc.set_profile_value "rpc-url" "http://x.example" =
      .error (.profileNotFound "ghost") ∧
    failedWithNoActiveProfile
      (danglingDoc.set_profile_value "rpc-url" "http://x.example") = false :=
  ⟨rfl, rfl, rfl, rfl, rfl⟩

/-- Claim C5 (amended): on every document whose `defaults.active_profile`
names a profile absent from the profiles map, `active_profile` returns none,
and both `get_profile_value` and `set_profile_value` fail with the
profile-not-found error naming the dangling profile (not a crash, not a
silent default). -/
theorem dangling_profile_errors (c : ConfigFile) (name : String)
    (h1 : c.defaults.active_profile = some name)
    (h2 : Profiles.find? name c.profiles = none) :
    c.active_profile = none ∧
    (∀ key, c.get_profile_value key = .error (.profileNotFound name)) ∧
    (∀ key v, c.set_profile_value key v = .error (.profileNotFound name)) := by
  refine ⟨?_, fun key => ?_, fun key v => ?_⟩
  · simp [ConfigFile.active_profile, h1, h2]
  · simp [ConfigFile.get_profile_value, h1, h2]
  · simp [ConfigFile.set_profile_value, h1, h2]

/-- Witness for C5 (amended): the dangling-document fixture exhibits all three
behaviors. -/
theorem dangling_profile_errors_witness :
    danglingDoc.active_profile = none ∧
    danglingDoc.get_profile_value "merchant" = .error (.profileNotFound "ghost") ∧
    danglingDoc.set_profile_value "merchant" "M1" = .error (.profileNotFound "ghost") := by
  obtain ⟨ha, hg, hs⟩ := dangling_profile_errors danglingDoc "ghost" rfl rfl
  exact ⟨ha, hg "merchant", hs "merchant" "M1"⟩

/-- Claim C6: `create_profile` on a name already present always fails with the
profile-exists error (producing no new document); on a name not present it
succeeds, the inserted profile has `merchant` and `wallet_path` unset, and the
defaults (in particular the active profile) are unchanged. -/
theorem create_profile_spec (c : ConfigFile) (name rpc : String)
    (pid mint : Option String) :
    (Profiles.containsKey name c.profiles = true →
      create_profile c name rpc pid mint = .error (.profileExists name)) ∧
    (Profiles.containsKey name c.profiles = false →
      ∃ c2, create_profile c name rpc pid mint = .ok c2 ∧
        Profiles.find? name c2.profiles = some
          { rpc_url := rpc, program_id := pid, usdc_mint := mint,
            merchant := none, wallet_path := none } ∧
        c2.defaults = c.defaults ∧ c2.version = c.version) := by
  constructor
  · intro h
    simp [create_profile, h]
  · intro h
    refine ⟨{ c with profiles :=
        Profiles.insert name (ProfileConfig.mk rpc pid mint none none) c.profiles },
      ?_, ?_, rfl, rfl⟩
    · simp [create_profile, h]
    · simp [Profiles.find_insert_self]

/-- Witness for C6: creating `devnet` again fails on the seeded document;
creating a fresh `testnet` succeeds with unset merchant and wallet path and
the same defaults. -/
theorem create_profile_spec_witness :
    Profiles.containsKey "devnet" ConfigFile.new.profiles = true ∧
    create_profile ConfigFile.new "devnet" "http://r.example" none none =
      .error (.profileExists "devnet") ∧
    Profiles.containsKey "testnet" ConfigFile.new.profiles = false ∧
    (∃ c2, create_profile ConfigFile.new "testnet" "http://r.example" none none = .ok c2 ∧
      Profiles.find? "testnet" c2.profiles = some
        { rpc_url := "http://r.example", program_id := none, usdc_mint := none,
          merchant := none, wallet_path := none } ∧
      c2.defaults = ConfigFile.new.defaults ∧ c2.version = ConfigFile.new.version) := by
  refine ⟨rfl, ?_, rfl, ?_⟩
  · exact (create_profile_spec ConfigFile.new "devnet" "http://r.example" none none).1 rfl
  · exact (create_profile_spec ConfigFile.new "testnet" "http://r.example" none none).2 rfl

/-- A serialized profile table parses back to the profile it came from. -/
theorem parseProfile_serializeKvs (p : ProfileConfig) :
    parseProfile (serializeProfileKvs p) = .ok p := by
  obtain ⟨rpc, pid, mint, merch, wp⟩ := p
  cases pid <;> cases mint <;> cases merch <;> cases wp <;> rfl

/-- A serialized defaults table parses back to the record it came from. -/
theorem parseDefaults_serializeKvs (d : DefaultConfig) :
    parseDefaults (serializeDefaults d) = .ok d := by
  obtain ⟨ap, o, w⟩ := d
  cases ap <;> cases o <;> cases w <;> rfl

/-- A serialized profiles table parses back to the original association list. -/
theorem parseProfiles_serialize (ps : Profiles) :
    parseProfiles (ps.map fun kv => (kv.1, Toml.table (serializeProfileKvs kv.2))) = .ok ps := by
  induction ps with
  | nil => rfl
  | cons hd tl ih =>
    obtain ⟨name, p⟩ := hd
    simp [parseProfiles, parseProfile_serializeKvs, ih, exceptBind_ok]

/-- Claim C7: serialization round-trip — parsing the serialized document gives
back the original document, field for field. -/
theorem toml_roundtrip (c : ConfigFile) :
    parseConfigToml (serializeConfigFile c) = .ok c := by
  obtain ⟨v, d, ps⟩ := c
  simp [serializeConfigFile, serializeProfile, parseConfigToml, Toml.lookup,
    parseDefaults_serializeKvs, parseProfiles_serialize, exceptBind_ok]

/-- Counterexample for C8: an invocation whose persisted document is malformed
does not surface the parse error at the top level — the startup load in `main`
swallows it and proceeds with the freshly seeded default document. -/
theorem malformed_config_substituted_state :
    ConfigFile.load "/home/u/.config/tally/config.toml"
        (FileState.malformed "TOML parse error") =
      .error (.parseError "/home/u/.config/tally/config.toml" "TOML parse error") ∧
    mainLoadConfigFile "/home/u/.config/tally/config.toml"
        (FileState.malformed "TOML parse error") = ConfigFile.new :=
  ⟨rfl, rfl⟩

/-- Claim C8 (amended): every error raised by a config-file operation —
whether by its load step (including the parse error on a malformed persisted
document) or inside the operation itself — is returned unchanged to the
top-level dispatcher, for all five operations (get, set, list, use, create);
by contrast, the startup load in `main` for SDK-bound commands catches any
load error and substitutes the freshly seeded default document instead of
surfacing it. -/
theorem load_error_propagation (path : String) (fs : FileState) :
    (∀ e, ConfigFile.load path fs = .error e →
      (∀ key prof, configOpsGet path fs key prof = .error e) ∧
      (∀ key v prof, configSetCmd path fs key v prof = .error e) ∧
      (∀ prof, configOpsList path fs prof = .error e) ∧
      (∀ name, configOpsUse path fs name = .error e) ∧
      (∀ name rpc pid mint, configCreateCmd path fs name rpc pid mint = .error e) ∧
      mainLoadConfigFile path fs = ConfigFile.new) ∧
    (∀ c, ConfigFile.load path fs = .ok c →
      (∀ key prof e, configGetCore c key prof = .error e →
        configOpsGet path fs key prof = .error e) ∧
      (∀ key v prof e, configOpsSet c key v prof = .error e →
        configSetCmd path fs key v prof = .error e) ∧
      (∀ prof e, configListCore c prof = .error e →
        configOpsList path fs prof = .error e) ∧
      (∀ name e, configUseCore c name = .error e →
        configOpsUse path fs name = .error e) ∧
      (∀ name rpc pid mint e, create_profile c name rpc pid mint = .error e →
        configCreateCmd path fs name rpc pid mint = .error e)) := by
  constructor
  · intro e h
    refine ⟨fun key prof => ?_, fun key v prof => ?_, fun prof => ?_,
        fun name => ?_, fun name rpc pid mint => ?_, ?_⟩
    · rw [configOpsGet, h, exceptBind_error]
    · rw [configSetCmd, h, exceptBind_error]
    · rw [configOpsList, h, exceptBind_error]
    · rw [configOpsUse, h, exceptBind_error]
    · rw [configCreateCmd, h, exceptBind_error]
    · simp [mainLoadConfigFile, h]
  · intro c h
    refine ⟨fun key prof e he => ?_, fun key v prof e he => ?_,
        fun prof e he => ?_, fun name e he => ?_, fun name rpc pid mint e he => ?_⟩
    · rw [configOpsGet, h, exceptBind_ok, he]
    · rw [configSetCmd, h, exceptBind_ok, he]
    · rw [configOpsList, h, exceptBind_ok, he]
    · rw [configOpsUse, h, exceptBind_ok, he]
    · rw [configCreateCmd, h, exceptBind_ok, he]

/-- Witness for C8 (amended): with a malformed file all five operations return
the parse error while the startup load substitutes the seeded document; with a
missing file (load returns the seeded document) operation-level errors —
unknown key, unknown profile, duplicate profile — come back unchanged. -/
theorem load_error_propagation_witness :
    configOpsGet "cfg.toml" (FileState.malformed "bad") "rpc-url" none =
      .error (.parseError "cfg.toml" "bad") ∧
    configSetCmd "cfg.toml" (FileState.malformed "bad") "rpc-url" "http://u.example" none =
      .error (.parseError "cfg.toml" "bad") ∧
    configOpsList "cfg.toml" (FileState.malformed "bad") none =
      .error (.parseError "cfg.toml" "bad") ∧
    configOpsUse "cfg.toml" (FileState.malformed "bad") "devnet" =
      .error (.parseError "cfg.toml" "bad") ∧
    configCreateCmd "cfg.toml" (FileState.malformed "bad") "x" "http://r.example" none none =
      .error (.parseError "cfg.toml" "bad") ∧
    mainLoadConfigFile "cfg.toml" (FileState.malformed "bad") = ConfigFile.new ∧
    configOpsGet "cfg.toml" FileState.absent "bogus-key" none =
      .error (.unknownKey "bogus-key") ∧
    configOpsUse "cfg.toml" FileState.absent "nope" =
      .error (.profileNotFound "nope") ∧
    configCreateCmd "cfg.toml" FileState.absent "devnet" "http://r.example" none none =
      .error (.profileExists "devnet") := by
  obtain ⟨ha, -⟩ := load_error_propagation "cfg.toml" (FileState.malformed "bad")
  obtain ⟨hg, hs, hl, hu, hc, hm⟩ := ha (.parseError "cfg.toml" "bad") rfl
  obtain ⟨-, hb⟩ := load_error_propagation "cfg.toml" FileState.absent
  obtain ⟨hg2, -, -, hu2, hc2⟩ := hb ConfigFile.new rfl
  exact ⟨hg "rpc-url" none, hs "rpc-url" "http://u.example" none, hl none,
    hu "devnet", hc "x" "http://r.example" none none, hm,
    hg2 "bogus-key" none (.unknownKey "bogus-key") rfl,
    hu2 "nope" (.profileNotFound "nope") rfl,
    hc2 "devnet" "http://r.example" none none (.profileExists "devnet") rfl⟩

/-- Lemma: `set_profile_value` never touches the `defaults` record. -/
theorem set_profile_value_preserves_defaults (c : ConfigFile) (key v : String)
    (c2 : ConfigFile) (h : c.set_profile_value key v = .ok c2) :
    c2.defaults = c.defaults := by
  simp only [ConfigFile.set_profile_value] at h
  split at h
  · cases h
  · split at h
    · cases h
    · split at h
      · cases h
      · cases h; rfl

/-- Claim C10: when `config set` is invoked with an explicit `--profile NAME`
and succeeds, the active profile of the saved document equals the previous one when
one was set (the temporary switch is restored), but becomes `NAME` when none
was previously set — an explicit-profile write persists a new active profile
as a side effect. -/
theorem configOpsSet_active_profile_effect (c : ConfigFile) (key v name : String)
    (c2 : ConfigFile) (h : configOpsSet c key v (some name) = .ok c2) :
    (∀ orig, c.defaults.active_profile = some orig →
      c2.defaults.active_profile = some orig) ∧
    (c.defaults.active_profile = none →
      c2.defaults.active_profile = some name) := by
  rw [configOpsSet] at h
  constructor
  · intro orig horig
    rw [horig] at h
    cases hspv : ConfigFile.set_profile_value (c.set_active_profile name) key v with
    | error e => rw [hspv, exceptBind_error] at h; cases h
    | ok cmid =>
      rw [hspv, exceptBind_ok] at h
      cases h
      rfl
  · intro hnone
    rw [hnone] at h
    cases hspv : ConfigFile.set_profile_value (c.set_active_profile name) key v with
    | error e => rw [hspv, exceptBind_error] at h; cases h
    | ok cmid =>
      rw [hspv, exceptBind_ok] at h
      cases h
      show cmid.defaults.active_profile = some name
      rw [set_profile_value_preserves_defaults _ _ _ _ hspv]
      rfl

/-- Witness for C10: on the seeded document (active profile `devnet`), a set
with `--profile mainnet` restores `devnet` in the saved document; on a
document with no active profile, the same set persists `mainnet` as active. -/
theorem configOpsSet_active_profile_witness :
    (∃ c2, configOpsSet ConfigFile.new "rpc-url" "http://w.example" (some "mainnet") = .ok c2 ∧
      c2.defaults.active_profile = some "devnet") ∧
    (∃ c2, configOpsSet noActiveDoc "rpc-url" "http://w.example" (some "mainnet") = .ok c2 ∧
      c2.defaults.active_profile = some "mainnet") := by
  constructor
  · refine ⟨_, rfl, ?_⟩
    exact (configOpsSet_active_profile_effect ConfigFile.new "rpc-url" "http://w.example"
      "mainnet" _ rfl).1 "devnet" rfl
  · refine ⟨_, rfl, ?_⟩
    exact (configOpsSet_active_profile_effect noActiveDoc "rpc-url" "http://w.example"
      "mainnet" _ rfl).2 rfl

end Tally
